import Mathlib

/-!
Verification of the AI Maintenance Reporter service against its design
specification.

The development shallowly embeds the two FastAPI variants of the service:

* `Backend` — the deployment variant in `backend/main.py` (ownership-scoped
  ticket reads, role-checked status updates and deletes);
* `Root` — the draft variant in `main.py` at the repository root (an
  email-domain allowlist at signup, but no ownership or role checks on the
  ticket read/list/status endpoints).

The three-stage classification pipeline (`analyze_image` → `classify_issue`
→ `create_ticket`) is shared verbatim between the two variants and is
embedded once.  The external vision classifier, the filesystem and the
password hash are out-of-scope collaborators per the specification; they are
modelled as explicit parameters (a `Bool` for file existence, an
`Except String (Option String)` for the classifier call outcome, a tagging
function for the hash).  Database tables are lists of rows; SQL statements
become list operations; `ORDER BY created_at DESC` becomes a merge sort with
a descending comparator.  HTTP failures become an explicit `ApiResult`.
-/

/-! ## String helpers

Python's `in`, `.lower()` and `.endswith` on strings, modelled over the
character list of a `String`.  Lowercasing uses `Char.toLower`, which (like
the keywords the classifier matches) only involves the basic latin range.
-/

/-- Does `pat` occur as a leading segment of `s`? -/
def charsLeadMatch : List Char → List Char → Bool
  | [], _ => true
  | _ :: _, [] => false
  | p :: ps, c :: cs => p == c && charsLeadMatch ps cs

/-- Does `pat` occur contiguously anywhere inside `s`?  (Python `pat in s`.) -/
def charsContain (pat : List Char) : List Char → Bool
  | [] => pat.isEmpty
  | c :: cs => charsLeadMatch pat (c :: cs) || charsContain pat cs

/-- Python `pat in s` on strings. -/
def strContains (s pat : String) : Bool :=
  charsContain pat.data s.data

/-- Python `s.lower()` (basic latin range). -/
def str_lower (s : String) : String :=
  String.mk (s.data.map Char.toLower)

/-- Python `s.endswith(pat)`. -/
def strEndsWith (s pat : String) : Bool :=
  charsLeadMatch pat.data.reverse s.data.reverse

/-! ## Classification pipeline (stage 2 helpers)

Embeds the body of `classify_issue_node`, identical in both variants.
-/

def critical_keywords : List String :=
  ["severely", "broken", "damaged", "fire", "sparking", "dangerous",
   "hazard", "catastrophic", "major", "shattered"]

def high_keywords : List String :=
  ["not working", "malfunctioning", "cracked", "bent", "loose", "leaking"]

def low_keywords : List String :=
  ["no maintenance issues", "no issues", "no visible issues", "minor", "slight"]

/-- The `issue_type` if-chain of `classify_issue_node`, applied to the raw
(stage-1) summary; the node lowercases the summary first, as the code does. -/
def classify_issue_type (issue_detected : String) : String :=
  let issue_text := str_lower issue_detected
  if strContains issue_text "fan" then "Fan"
  else if strContains issue_text "light" || strContains issue_text "bulb"
       || strContains issue_text "lamp" then "Light"
  else if strContains issue_text "furniture" || strContains issue_text "chair"
       || strContains issue_text "table" || strContains issue_text "desk" then "Furniture"
  else if strContains issue_text "electronics" || strContains issue_text "computer"
       || strContains issue_text "screen" then "Electronics"
  else if strContains issue_text "electrical" || strContains issue_text "wire"
       || strContains issue_text "socket" then "Electrical"
  else "Other"

/-- The `priority` if-chain of `classify_issue_node`: the low-keyword check
runs first, then critical, then the medium ("high_keywords") list, with
"low" as the default. -/
def classify_priority (issue_detected : String) : String :=
  let issue_text := str_lower issue_detected
  if low_keywords.any (fun k => strContains issue_text k) then "low"
  else if critical_keywords.any (fun k => strContains issue_text k) then "high"
  else if high_keywords.any (fun k => strContains issue_text k) then "medium"
  else "low"

/-- The enumerated issue types of the data model. -/
def issue_types : List String :=
  ["Fan", "Light", "Furniture", "Electronics", "Electrical", "Other"]

/-- The enumerated priorities of the data model. -/
def priorities : List String := ["low", "medium", "high"]

/-! Specification-side rendering of the issue-type rule, for the refinement
claim: an ordered table of keyword groups, first match wins, `"Other"` as the
fallthrough.  This definition follows the specification's wording, not the
code. -/

/-- First label whose keyword group has a match in `t`; `"Other"` otherwise. -/
def firstMatch (t : String) : List (List String × String) → String
  | [] => "Other"
  | (kws, label) :: rest =>
      if kws.any (fun k => strContains t k) then label else firstMatch t rest

/-- The specification's ordered issue-type table. -/
def issueTypeTable : List (List String × String) :=
  [(["fan"], "Fan"),
   (["light", "bulb", "lamp"], "Light"),
   (["furniture", "chair", "table", "desk"], "Furniture"),
   (["electronics", "computer", "screen"], "Electronics"),
   (["electrical", "wire", "socket"], "Electrical")]

/-- Issue type as the specification words it (ordered first-match-wins). -/
def spec_issue_type (s : String) : String :=
  firstMatch (str_lower s) issueTypeTable

/-! ## Pipeline state and stages -/

/-- The LangGraph `AgentState`; `messages` keeps only the message text. -/
structure AgentState where
  messages : List String
  image_path : String
  issue_detected : String
  issue_type : String
  priority : String
  ticket_created : Bool
deriving DecidableEq

/-- `image_reasoning_tool`: `file_found` models `os.path.exists`, and `call`
models the outcome of the external classifier call — `Except.error msg` an
exception with message `msg`, `Except.ok none` a falsy `response.text`,
`Except.ok (some t)` a response with text `t` (then stripped). -/
def image_reasoning_tool (file_found : Bool) (call : Except String (Option String))
    (image_path : String) : String :=
  if !file_found then
    "Error: Image not found at " ++ image_path
  else
    match call with
    | Except.error e => "Error occurred: " ++ e
    | Except.ok none => "No visible issues detected."
    | Except.ok (some t) => t.trim

def analyze_image_node (file_found : Bool) (call : Except String (Option String))
    (state : AgentState) : AgentState :=
  let analysis_result := image_reasoning_tool file_found call state.image_path
  { state with
    issue_detected := analysis_result,
    messages := state.messages ++ ["Image Analysis Complete: " ++ analysis_result] }

def classify_issue_node (state : AgentState) : AgentState :=
  let issue_type := classify_issue_type state.issue_detected
  let priority := classify_priority state.issue_detected
  { state with
    issue_type := issue_type,
    priority := priority,
    messages := state.messages ++
      ["Issue classified as: " ++ issue_type ++ " (Priority: " ++ priority ++ ")"] }

def create_ticket_node (state : AgentState) : AgentState :=
  { state with
    ticket_created := true,
    messages := state.messages ++ ["Maintenance ticket ready to be created"] }

/-- The compiled linear workflow: analyze → classify → create. -/
def agent_workflow (file_found : Bool) (call : Except String (Option String))
    (state : AgentState) : AgentState :=
  create_ticket_node (classify_issue_node (analyze_image_node file_found call state))

/-- The initial state built by the `create_ticket` endpoint. -/
def initial_state (student_name location image_path : String) : AgentState :=
  { messages := ["Analyzing image from " ++ student_name ++ " at " ++ location],
    image_path := image_path,
    issue_detected := "",
    issue_type := "",
    priority := "",
    ticket_created := false }

/-! ## Data model

Rows of the `users` and `tickets` tables; a database state is a pair of
row lists.  `created_at` timestamps are naturals. -/

structure User where
  id : Nat
  email : String
  password_hash : String
  full_name : String
  role : String
deriving DecidableEq

structure Ticket where
  id : Nat
  user_id : Nat
  student_name : String
  location : String
  issue_type : String
  description : String
  image_path : String
  status : String
  created_at : Nat
  priority : String
deriving DecidableEq

structure DB where
  users : List User
  tickets : List Ticket
deriving DecidableEq

/-- Outcome of a request handler: a value, or an `HTTPException` with a
status code and detail string. -/
inductive ApiResult (α : Type) where
  | ok (value : α)
  | err (status : Nat) (detail : String)
deriving DecidableEq

/-- Status code of an error result, `none` on success. -/
def ApiResult.code {α : Type} : ApiResult α → Option Nat
  | ApiResult.ok _ => none
  | ApiResult.err s _ => some s

/-- `SELECT ... FROM users WHERE id = ?` followed by `fetchone`. -/
def find_user (db : DB) (uid : Nat) : Option User :=
  db.users.find? (fun u => u.id == uid)

/-- Role lookup with the `user_data[0] if user_data else "student"` default
used by `get_tickets` and `update_ticket`. -/
def user_role (db : DB) (uid : Nat) : String :=
  match find_user db uid with
  | some u => u.role
  | none => "student"

/-- The `if not user_data or user_data[0] != "admin"` guard of
`update_ticket_status` and `delete_ticket`. -/
def is_admin_strict (db : DB) (uid : Nat) : Bool :=
  match find_user db uid with
  | some u => u.role == "admin"
  | none => false

/-- Descending `created_at` order (`ORDER BY created_at DESC`). -/
def created_ge (a b : Ticket) : Prop :=
  b.created_at ≤ a.created_at

instance : DecidableRel created_ge :=
  fun a b => Nat.decLe b.created_at a.created_at

instance : IsTotal Ticket created_ge :=
  ⟨fun a b => Nat.le_total b.created_at a.created_at⟩

instance : IsTrans Ticket created_ge :=
  ⟨fun _ _ _ hab hbc => Nat.le_trans hbc hab⟩

/-- `SELECT ... ORDER BY created_at DESC` over a row list (the SQL engine's
sort, modelled as an insertion sort). -/
def sort_tickets (ts : List Ticket) : List Ticket :=
  List.insertionSort created_ge ts

/-- Sorting does not change the set of rows. -/
theorem mem_sort_tickets {t : Ticket} {ts : List Ticket} :
    t ∈ sort_tickets ts ↔ t ∈ ts :=
  (List.perm_insertionSort created_ge ts).mem_iff

def valid_statuses : List String := ["pending", "in_progress", "resolved", "closed"]

structure SignupRequest where
  email : String
  password : String
  full_name : String
  role : String
deriving DecidableEq

/-- The password hash is an out-of-scope collaborator (spec §1); modelled as
an opaque-but-injective tagging of the password. -/
def get_password_hash (password : String) : String :=
  "hashed:" ++ password

/-- `PATCH /api/tickets/{id}` body: optional fields, `none` = absent. -/
structure TicketUpdateRequest where
  student_name : Option String
  location : Option String
  issue_type : Option String
  description : Option String
  priority : Option String
  status : Option String
deriving DecidableEq

/-! ## Backend variant (`backend/main.py`) -/

namespace Backend

/-- `POST /api/auth/signup`: duplicate-email check, then insert.  The issued
token and echoed user are summarised by the fresh user id. -/
def signup (db : DB) (req : SignupRequest) (new_id : Nat) : DB × ApiResult Nat :=
  if db.users.any (fun u => u.email == req.email) then
    (db, ApiResult.err 400 "Email already registered")
  else
    let row : User :=
      { id := new_id, email := req.email,
        password_hash := get_password_hash req.password,
        full_name := req.full_name, role := req.role }
    ({ db with users := db.users ++ [row] }, ApiResult.ok new_id)

/-- `POST /api/tickets/`: runs the workflow on the saved image and inserts a
row using the final state's `issue_type`, `issue_detected` (as description)
and `priority`; `status` takes the column default `pending`. -/
def create_ticket (db : DB) (caller_id : Nat) (student_name location image_path : String)
    (file_found : Bool) (call : Except String (Option String))
    (new_id now : Nat) : DB × Ticket :=
  let final_state := agent_workflow file_found call (initial_state student_name location image_path)
  let row : Ticket :=
    { id := new_id, user_id := caller_id,
      student_name := student_name, location := location,
      issue_type := final_state.issue_type,
      description := final_state.issue_detected,
      image_path := image_path, status := "pending",
      created_at := now, priority := final_state.priority }
  ({ db with tickets := db.tickets ++ [row] }, row)

/-- `GET /api/tickets/`: role-scoped listing, newest first. -/
def get_tickets (db : DB) (caller_id : Nat) : List Ticket :=
  if user_role db caller_id == "admin" then
    sort_tickets db.tickets
  else
    sort_tickets (db.tickets.filter (fun t => t.user_id == caller_id))

/-- `GET /api/tickets/{id}`: lookup with `WHERE id = ? AND user_id = ?`. -/
def get_ticket (db : DB) (caller_id ticket_id : Nat) : ApiResult Ticket :=
  match db.tickets.find? (fun t => t.id == ticket_id && t.user_id == caller_id) with
  | none => ApiResult.err 404 "Ticket not found"
  | some t => ApiResult.ok t

/-- `PUT /api/tickets/{id}/status`: value check, admin check, update, 404 on
zero rows affected.  Returns the new database and the response. -/
def update_ticket_status (db : DB) (caller_id ticket_id : Nat) (ticket_status : String) :
    DB × ApiResult (Nat × String) :=
  if !valid_statuses.contains ticket_status then
    (db, ApiResult.err 400 "Invalid status. Must be one of: pending, in_progress, resolved, closed")
  else if !is_admin_strict db caller_id then
    (db, ApiResult.err 403 "Admin access required")
  else
    let updated := db.tickets.map
      (fun t => if t.id == ticket_id then { t with status := ticket_status } else t)
    let rows_affected := (db.tickets.filter (fun t => t.id == ticket_id)).length
    if rows_affected == 0 then
      (db, ApiResult.err 404 "Ticket not found")
    else
      ({ db with tickets := updated }, ApiResult.ok (ticket_id, ticket_status))

/-- Application of the non-`none` fields of a `PATCH` body to a row. -/
def apply_update (u : TicketUpdateRequest) (t : Ticket) : Ticket :=
  { t with
    student_name := u.student_name.getD t.student_name,
    location := u.location.getD t.location,
    issue_type := u.issue_type.getD t.issue_type,
    description := u.description.getD t.description,
    priority := u.priority.getD t.priority,
    status := u.status.getD t.status }

/-- `PATCH /api/tickets/{id}`: 404 on missing row, 403 for a caller who is
neither admin nor owner, 403 for a non-admin touching `status`, 400 on an
empty body, else update and re-read. -/
def update_ticket (db : DB) (caller_id ticket_id : Nat) (u : TicketUpdateRequest) :
    DB × ApiResult Ticket :=
  let role := user_role db caller_id
  match db.tickets.find? (fun t => t.id == ticket_id) with
  | none => (db, ApiResult.err 404 "Ticket not found")
  | some t0 =>
    if role != "admin" && t0.user_id != caller_id then
      (db, ApiResult.err 403 "Not authorized to update this ticket")
    else if u.status.isSome && role != "admin" then
      (db, ApiResult.err 403 "Only admins can update ticket status")
    else if u.student_name.isNone && u.location.isNone && u.issue_type.isNone
         && u.description.isNone && u.priority.isNone && u.status.isNone then
      (db, ApiResult.err 400 "No fields to update")
    else
      let updated := db.tickets.map
        (fun t => if t.id == ticket_id then apply_update u t else t)
      match updated.find? (fun t => t.id == ticket_id) with
      | some t2 => ({ db with tickets := updated }, ApiResult.ok t2)
      | none => ({ db with tickets := updated }, ApiResult.err 500 "unreachable re-read")

/-- `DELETE /api/tickets/{id}`: admin check, row lookup, row deletion, then
best-effort image removal.  `image_on_disk` models `os.path.exists` and
`remove_ok` whether `os.remove` succeeds (a failure is caught and only
logged).  Returns the new database, whether the image file was removed, and
the response. -/
def delete_ticket (db : DB) (caller_id ticket_id : Nat)
    (image_on_disk remove_ok : Bool) : DB × Bool × ApiResult Nat :=
  if !is_admin_strict db caller_id then
    (db, false, ApiResult.err 403 "Admin access required")
  else
    match db.tickets.find? (fun t => t.id == ticket_id) with
    | none => (db, false, ApiResult.err 404 "Ticket not found")
    | some t =>
      let db2 : DB := { db with tickets := db.tickets.filter (fun u => !(u.id == ticket_id)) }
      let image_removed := t.image_path != "" && image_on_disk && remove_ok
      (db2, image_removed, ApiResult.ok ticket_id)

end Backend

/-! ## Root variant (`main.py` at the repository root) -/

namespace Root

/-- `POST /api/auth/signup`: the `@reva.edu.in` domain allowlist runs before
the duplicate-email check. -/
def signup (db : DB) (req : SignupRequest) (new_id : Nat) : DB × ApiResult Nat :=
  if !strEndsWith req.email "@reva.edu.in" then
    (db, ApiResult.err 400 "Only @reva.edu.in emails are allowed")
  else if db.users.any (fun u => u.email == req.email) then
    (db, ApiResult.err 400 "Email already registered")
  else
    let row : User :=
      { id := new_id, email := req.email,
        password_hash := get_password_hash req.password,
        full_name := req.full_name, role := req.role }
    ({ db with users := db.users ++ [row] }, ApiResult.ok new_id)

/-- `GET /api/tickets`: `SELECT * FROM tickets ORDER BY created_at DESC` for
every authenticated caller — no role scoping.  The caller id from the token
is unused by the handler. -/
def get_all_tickets (db : DB) (caller_id : Nat) : List Ticket :=
  sort_tickets db.tickets

/-- `GET /api/tickets/{id}`: `SELECT * FROM tickets WHERE id = ?` — no
ownership constraint.  The caller id from the token is unused. -/
def get_ticket (db : DB) (caller_id ticket_id : Nat) : ApiResult Ticket :=
  match db.tickets.find? (fun t => t.id == ticket_id) with
  | none => ApiResult.err 404 "Ticket not found"
  | some t => ApiResult.ok t

/-- `PUT /api/tickets/{id}/status`: value check, then the update — no role
check of any kind.  (The 400 detail text is abbreviated.) -/
def update_ticket_status (db : DB) (caller_id ticket_id : Nat) (ticket_status : String) :
    DB × ApiResult (Nat × String) :=
  if !valid_statuses.contains ticket_status then
    (db, ApiResult.err 400 "Invalid status")
  else
    let updated := db.tickets.map
      (fun t => if t.id == ticket_id then { t with status := ticket_status } else t)
    let rows_affected := (db.tickets.filter (fun t => t.id == ticket_id)).length
    if rows_affected == 0 then
      (db, ApiResult.err 404 "Ticket not found")
    else
      ({ db with tickets := updated }, ApiResult.ok (ticket_id, ticket_status))

end Root

/-! ## Helper lemmas -/

/-- The issue-type if-chain can only produce one of the six enumerated
labels. -/
theorem classify_issue_type_mem (s : String) : classify_issue_type s ∈ issue_types := by
  simp only [classify_issue_type, issue_types]
  repeat' split
  all_goals simp

/-- The priority if-chain can only produce one of the three enumerated
levels. -/
theorem classify_priority_mem (s : String) : classify_priority s ∈ priorities := by
  simp only [classify_priority, priorities]
  repeat' split
  all_goals simp

/-- Running the three-stage workflow from the endpoint's initial state:
field-level description of the final state. -/
theorem agent_workflow_final (sn loc path : String) (file_found : Bool)
    (call : Except String (Option String)) :
    (agent_workflow file_found call (initial_state sn loc path)).ticket_created = true ∧
    (agent_workflow file_found call (initial_state sn loc path)).issue_detected
      = image_reasoning_tool file_found call path ∧
    (agent_workflow file_found call (initial_state sn loc path)).issue_type
      = classify_issue_type (image_reasoning_tool file_found call path) ∧
    (agent_workflow file_found call (initial_state sn loc path)).priority
      = classify_priority (image_reasoning_tool file_found call path) := by
  refine ⟨rfl, rfl, rfl, rfl⟩

/-! ## Claim C1 -/

/-- Claim C1: for every classifier summary containing (case-insensitively)
at least one low-priority keyword and at least one critical keyword, the
classification stage resolves priority to `"low"` — the low-keyword check
takes precedence over the critical-keyword check. -/
theorem c1_low_keyword_precedence (s : String)
    (hlow : low_keywords.any (fun k => strContains (str_lower s) k) = true)
    (hcrit : critical_keywords.any (fun k => strContains (str_lower s) k) = true) :
    classify_priority s = "low" := by
  simp [classify_priority, hlow]

/-- Concrete instance of C1: "minor fire" has the low keyword "minor" and
the critical keyword "fire", and is classified low. -/
theorem c1_witness :
    low_keywords.any (fun k => strContains (str_lower "minor fire") k) = true ∧
    critical_keywords.any (fun k => strContains (str_lower "minor fire") k) = true ∧
    classify_priority "minor fire" = "low" :=
  ⟨by decide, by decide, c1_low_keyword_precedence "minor fire" (by decide) (by decide)⟩

/-! ## Claim C2 -/

/-- Claim C2: the issue-type assignment is exactly the specification's
ordered first-match-wins substring matching over the lowercased summary,
and in particular a summary containing both "fan" and "light" is classified
`"Fan"`. -/
theorem c2_issue_type_first_match (s : String) :
    classify_issue_type s = spec_issue_type s ∧
    (strContains (str_lower s) "fan" = true →
     strContains (str_lower s) "light" = true →
     classify_issue_type s = "Fan") := by
  constructor
  · simp [classify_issue_type, spec_issue_type, firstMatch, issueTypeTable, Bool.or_assoc]
  · intro hfan _
    simp [classify_issue_type, hfan]

/-- Concrete instance of C2: "broken fan light" contains both "fan" and
"light" and is classified `"Fan"`. -/
theorem c2_witness :
    strContains (str_lower "broken fan light") "fan" = true ∧
    strContains (str_lower "broken fan light") "light" = true ∧
    classify_issue_type "broken fan light" = "Fan" :=
  ⟨by decide, by decide,
   (c2_issue_type_first_match "broken fan light").2 (by decide) (by decide)⟩

/-! ## Claim C7 -/

/-- Claim C7: for every image path and every classifier behaviour (missing
file, raised exception, or a response), the three-stage pipeline completes
without propagating a failure: the failure is captured as a descriptive
string in `issue_detected`, stage 2 still assigns an enumerated
`issue_type` and `priority`, and the final state has
`ticket_created = true`. -/
theorem c7_pipeline_always_completes (sn loc path : String) (file_found : Bool)
    (call : Except String (Option String)) :
    (agent_workflow file_found call (initial_state sn loc path)).ticket_created = true ∧
    (agent_workflow file_found call (initial_state sn loc path)).issue_type ∈ issue_types ∧
    (agent_workflow file_found call (initial_state sn loc path)).priority ∈ priorities ∧
    (file_found = false →
      (agent_workflow file_found call (initial_state sn loc path)).issue_detected
        = "Error: Image not found at " ++ path) ∧
    (∀ msg, file_found = true → call = Except.error msg →
      (agent_workflow file_found call (initial_state sn loc path)).issue_detected
        = "Error occurred: " ++ msg) ∧
    (∀ (db : DB) (caller_id new_id now : Nat),
      (Backend.create_ticket db caller_id sn loc path file_found call new_id now).1.tickets.length
        = db.tickets.length + 1) := by
  obtain ⟨h1, h2, h3, h4⟩ := agent_workflow_final sn loc path file_found call
  refine ⟨h1, ?_, ?_, ?_, ?_, ?_⟩
  · rw [h3]; exact classify_issue_type_mem _
  · rw [h4]; exact classify_priority_mem _
  · intro hf
    rw [h2, hf]
    simp [image_reasoning_tool]
  · intro msg hf hc
    rw [h2, hf, hc]
    simp [image_reasoning_tool]
  · intro db caller_id new_id now
    simp [Backend.create_ticket]

/-- Concrete instance of C7: a missing image file still yields a completed
pipeline with the captured error string, and the endpoint still persists a
ticket row. -/
theorem c7_witness :
    (agent_workflow false (Except.ok none) (initial_state "s" "lab" "p.jpg")).ticket_created = true ∧
    (agent_workflow false (Except.ok none) (initial_state "s" "lab" "p.jpg")).issue_detected
      = "Error: Image not found at " ++ "p.jpg" ∧
    (Backend.create_ticket (DB.mk [] []) 2 "s" "lab" "p.jpg" false
      (Except.ok none) 7 30).1.tickets.length = (DB.mk [] []).tickets.length + 1 :=
  ⟨(c7_pipeline_always_completes "s" "lab" "p.jpg" false (Except.ok none)).1,
   (c7_pipeline_always_completes "s" "lab" "p.jpg" false (Except.ok none)).2.2.2.1 rfl,
   (c7_pipeline_always_completes "s" "lab" "p.jpg" false (Except.ok none)).2.2.2.2.2
     (DB.mk [] []) 2 7 30⟩

/-! ## Claim C9 -/

/-- Claim C9: the classification stage is total and its outputs lie in the
enumerated sets — `issue_type` among the six labels and `priority` among
the three levels, neither empty — so every ticket persisted via the
pipeline (the `create_ticket` endpoint) carries an in-range `issue_type`
and `priority`. -/
theorem c9_classification_total (s : String) :
    classify_issue_type s ∈ issue_types ∧
    classify_priority s ∈ priorities ∧
    0 < (classify_issue_type s).length ∧
    0 < (classify_priority s).length ∧
    ∀ (db : DB) (caller_id : Nat) (sn loc ip : String) (file_found : Bool)
      (call : Except String (Option String)) (new_id now : Nat),
      (Backend.create_ticket db caller_id sn loc ip file_found call new_id now).2.issue_type
        ∈ issue_types ∧
      (Backend.create_ticket db caller_id sn loc ip file_found call new_id now).2.priority
        ∈ priorities := by
  have htype : ∀ u : String, classify_issue_type u ∈ issue_types := classify_issue_type_mem
  have hpri : ∀ u : String, classify_priority u ∈ priorities := classify_priority_mem
  have hne : ∀ u : String, 0 < (classify_issue_type u).length := by
    intro u
    have := htype u
    simp only [issue_types, List.mem_cons, List.not_mem_nil, or_false] at this
    rcases this with h | h | h | h | h | h <;> rw [h] <;> decide
  have hne2 : ∀ u : String, 0 < (classify_priority u).length := by
    intro u
    have := hpri u
    simp only [priorities, List.mem_cons, List.not_mem_nil, or_false] at this
    rcases this with h | h | h <;> rw [h] <;> decide
  refine ⟨htype s, hpri s, hne s, hne2 s, ?_⟩
  intro db caller_id sn loc ip file_found call new_id now
  obtain ⟨_, _, h3, h4⟩ := agent_workflow_final sn loc ip file_found call
  constructor
  · show (agent_workflow file_found call (initial_state sn loc ip)).issue_type ∈ issue_types
    rw [h3]; exact htype _
  · show (agent_workflow file_found call (initial_state sn loc ip)).priority ∈ priorities
    rw [h4]; exact hpri _

/-- Concrete instance of C9 at the empty summary. -/
theorem c9_witness :
    classify_issue_type "" ∈ issue_types ∧ classify_priority "" ∈ priorities :=
  ⟨(c9_classification_total "").1, (c9_classification_total "").2.1⟩

/-! ## Shared lemmas about the backend ticket read endpoints -/

/-- When every ticket with the requested id belongs to someone other than
the caller, the backend `get_ticket` query finds no row and the endpoint
answers 404. -/
theorem backend_get_ticket_404 (db : DB) (caller_id ticket_id : Nat)
    (h : ∀ t ∈ db.tickets, t.id = ticket_id → t.user_id ≠ caller_id) :
    Backend.get_ticket db caller_id ticket_id = ApiResult.err 404 "Ticket not found" := by
  unfold Backend.get_ticket
  have hnone : db.tickets.find? (fun t => t.id == ticket_id && t.user_id == caller_id) = none := by
    rw [List.find?_eq_none]
    intro t ht
    simp only [Bool.and_eq_true, beq_iff_eq, not_and]
    exact h t ht
  rw [hnone]

/-- `sort_tickets` output is sorted by descending `created_at`. -/
theorem sort_tickets_sorted (ts : List Ticket) :
    List.Pairwise (fun a b => b.created_at ≤ a.created_at) (sort_tickets ts) :=
  List.sorted_insertionSort created_ge ts

/-! ## Claim C3 -/

/-- Sample ticket owned by user 1. -/
def c3_ticket : Ticket :=
  { id := 1, user_id := 1, student_name := "Alice", location := "Lab 2",
    issue_type := "Fan", description := "Ceiling fan blade is severely bent and broken",
    image_path := "uploads/fan.jpg", status := "pending", created_at := 10,
    priority := "high" }

/-- Sample database: two students, one ticket owned by user 1. -/
def c3_db : DB :=
  { users :=
      [{ id := 1, email := "alice@reva.edu.in", password_hash := "h1",
         full_name := "Alice", role := "student" },
       { id := 2, email := "bob@reva.edu.in", password_hash := "h2",
         full_name := "Bob", role := "student" }],
    tickets := [c3_ticket] }

/-- Claim C3 fails on the root variant (`main.py`): its `get_ticket` has no
ownership constraint, so the authenticated non-admin user 2 requesting
ticket 1 — owned by user 1 — receives the full ticket data with a 200, not
a 404/403. -/
theorem c3_counterexample :
    user_role c3_db 2 = "student" ∧
    c3_ticket.user_id ≠ 2 ∧
    Root.get_ticket c3_db 2 1 = ApiResult.ok c3_ticket := by
  refine ⟨rfl, by decide, by decide⟩

/-- Claim C3 (amended to the backend variant): in `backend/main.py`, any
caller — in particular any non-admin — requesting a ticket id whose owning
`user_id` differs from the caller's id receives 404 and never the ticket's
data. -/
theorem c3_backend_ownership_scoped (db : DB) (caller_id ticket_id : Nat)
    (h : ∀ t ∈ db.tickets, t.id = ticket_id → t.user_id ≠ caller_id) :
    Backend.get_ticket db caller_id ticket_id = ApiResult.err 404 "Ticket not found" :=
  backend_get_ticket_404 db caller_id ticket_id h

/-- Concrete instance of the amended C3: user 2 requesting user 1's ticket
from the backend variant gets 404. -/
theorem c3_witness :
    (∀ t ∈ c3_db.tickets, t.id = 1 → t.user_id ≠ 2) ∧
    Backend.get_ticket c3_db 2 1 = ApiResult.err 404 "Ticket not found" :=
  ⟨by decide, c3_backend_ownership_scoped c3_db 2 1 (by decide)⟩

/-! ## Claim C10 -/

/-- Sample database: an admin (id 9), a student (id 1) owning ticket 1. -/
def c10_db : DB :=
  { users :=
      [{ id := 1, email := "alice@reva.edu.in", password_hash := "h1",
         full_name := "Alice", role := "student" },
       { id := 9, email := "root@reva.edu.in", password_hash := "h9",
         full_name := "Admin", role := "admin" }],
    tickets := [c3_ticket] }

/-- Claim C10: in the backend variant, `GET /api/tickets/{id}` constrains
the lookup to the caller's own tickets even for admins — an admin
requesting another user's ticket by id receives 404 — although the list
endpoint shows that admin every ticket. -/
theorem c10_backend_admin_get_by_id_404 (db : DB) (caller_id ticket_id : Nat)
    (hadmin : user_role db caller_id = "admin")
    (h : ∀ t ∈ db.tickets, t.id = ticket_id → t.user_id ≠ caller_id) :
    Backend.get_ticket db caller_id ticket_id = ApiResult.err 404 "Ticket not found" ∧
    ∀ t ∈ db.tickets, t ∈ Backend.get_tickets db caller_id := by
  refine ⟨backend_get_ticket_404 db caller_id ticket_id h, ?_⟩
  intro t ht
  simp [Backend.get_tickets, hadmin, sort_tickets, ht]

/-- Concrete instance of C10: admin 9 requesting ticket 1 (owned by user 1)
by id gets 404, while the same admin's ticket list contains that ticket. -/
theorem c10_witness :
    user_role c10_db 9 = "admin" ∧
    Backend.get_ticket c10_db 9 1 = ApiResult.err 404 "Ticket not found" ∧
    c3_ticket ∈ Backend.get_tickets c10_db 9 :=
  ⟨rfl,
   (c10_backend_admin_get_by_id_404 c10_db 9 1 rfl (by decide)).1,
   (c10_backend_admin_get_by_id_404 c10_db 9 1 rfl (by decide)).2 c3_ticket (by decide)⟩

/-! ## Claim C5 -/

def c5_ticket_a : Ticket :=
  { id := 1, user_id := 1, student_name := "Alice", location := "Lab 2",
    issue_type := "Light", description := "Light bulb is cracked",
    image_path := "uploads/light.jpg", status := "pending", created_at := 10,
    priority := "medium" }

def c5_ticket_b : Ticket :=
  { id := 2, user_id := 2, student_name := "Bob", location := "Room 4",
    issue_type := "Fan", description := "Fan is broken",
    image_path := "uploads/fan2.jpg", status := "pending", created_at := 20,
    priority := "high" }

/-- Sample database: students 1 and 2, each owning one ticket. -/
def c5_db : DB :=
  { users :=
      [{ id := 1, email := "alice@reva.edu.in", password_hash := "h1",
         full_name := "Alice", role := "student" },
       { id := 2, email := "bob@reva.edu.in", password_hash := "h2",
         full_name := "Bob", role := "student" }],
    tickets := [c5_ticket_a, c5_ticket_b] }

/-- Claim C5 fails on the root variant (`main.py`): its `GET /api/tickets`
returns every ticket to every authenticated caller — the non-admin user 2
receives user 1's ticket as well as their own. -/
theorem c5_counterexample :
    user_role c5_db 2 = "student" ∧
    c5_ticket_a.user_id ≠ 2 ∧
    Root.get_all_tickets c5_db 2 = [c5_ticket_b, c5_ticket_a] := by
  refine ⟨rfl, by decide, by decide⟩

/-- Claim C5 (amended to the backend variant): `GET /api/tickets/` returns
all tickets to an admin and exactly the caller's own tickets to anyone
else, ordered by `created_at` descending. -/
theorem c5_backend_list_scoped (db : DB) (caller_id : Nat) :
    (∀ t, t ∈ Backend.get_tickets db caller_id ↔
       (t ∈ db.tickets ∧ (user_role db caller_id = "admin" ∨ t.user_id = caller_id))) ∧
    List.Pairwise (fun a b => b.created_at ≤ a.created_at)
      (Backend.get_tickets db caller_id) := by
  constructor
  · intro t
    by_cases hadmin : user_role db caller_id = "admin"
    · simp [Backend.get_tickets, hadmin, sort_tickets]
    · have hb : (user_role db caller_id == "admin") = false := by
        simpa using hadmin
      simp [Backend.get_tickets, hb, sort_tickets, List.mem_filter, hadmin]
  · unfold Backend.get_tickets
    split
    · exact sort_tickets_sorted _
    · exact sort_tickets_sorted _

/-- Concrete instance of C5: the non-admin user 2's backend listing
contains their own ticket. -/
theorem c5_witness :
    c5_ticket_b ∈ Backend.get_tickets c5_db 2 :=
  ((c5_backend_list_scoped c5_db 2).1 c5_ticket_b).2 ⟨by decide, Or.inr rfl⟩

/-! ## Claim C4 -/

/-- A caller whose looked-up role is not `"admin"` fails the strict admin
guard. -/
theorem is_admin_strict_false_of_role (db : DB) (uid : Nat)
    (h : user_role db uid ≠ "admin") : is_admin_strict db uid = false := by
  unfold is_admin_strict
  unfold user_role at h
  cases hf : find_user db uid with
  | none => rfl
  | some u =>
    rw [hf] at h
    simpa using h

/-- Claim C4 fails on the root variant (`main.py`): its
`PUT /api/tickets/{id}/status` performs no role check, so the non-admin
user 2 successfully sets ticket 1 to "resolved". -/
theorem c4_counterexample :
    user_role c3_db 2 = "student" ∧
    (Root.update_ticket_status c3_db 2 1 "resolved").2 = ApiResult.ok (1, "resolved") ∧
    (Root.update_ticket_status c3_db 2 1 "resolved").1.tickets.map Ticket.status
      = ["resolved"] := by
  refine ⟨rfl, by decide, by decide⟩

/-- Claim C4 (amended to the backend variant): in `backend/main.py`, a
non-admin caller can never change a ticket's status — the PUT status
endpoint leaves the database unchanged and answers 403 for any enumerated
status value, and a PATCH body carrying a `status` field leaves the
database unchanged and answers 403 whenever the ticket exists (404 when it
does not); an admin may set any of the four enumerated values on an
existing ticket regardless of its current status. -/
theorem c4_backend_status_admin_only (db : DB) (caller_id ticket_id : Nat)
    (s : String) (u : TicketUpdateRequest) :
    (user_role db caller_id ≠ "admin" →
      (Backend.update_ticket_status db caller_id ticket_id s).1 = db ∧
      (s ∈ valid_statuses →
        (Backend.update_ticket_status db caller_id ticket_id s).2
          = ApiResult.err 403 "Admin access required") ∧
      (u.status.isSome = true →
        (Backend.update_ticket db caller_id ticket_id u).1 = db ∧
        ((∃ t ∈ db.tickets, t.id = ticket_id) →
          ApiResult.code (Backend.update_ticket db caller_id ticket_id u).2 = some 403))) ∧
    (is_admin_strict db caller_id = true → s ∈ valid_statuses →
      (∃ t ∈ db.tickets, t.id = ticket_id) →
      (Backend.update_ticket_status db caller_id ticket_id s).2 = ApiResult.ok (ticket_id, s) ∧
      ∀ t ∈ (Backend.update_ticket_status db caller_id ticket_id s).1.tickets,
        t.id = ticket_id → t.status = s) := by
  constructor
  · intro hrole
    have hadm : is_admin_strict db caller_id = false :=
      is_admin_strict_false_of_role db caller_id hrole
    refine ⟨?_, ?_, ?_⟩
    · unfold Backend.update_ticket_status
      cases hc : valid_statuses.contains s <;> simp [hc, hadm]
    · intro hmem
      have hc : valid_statuses.contains s = true := by
        simpa [List.contains] using hmem
      unfold Backend.update_ticket_status
      simp [hc, hadm, hmem]
    · intro hstat
      cases hf : db.tickets.find? (fun t => t.id == ticket_id) with
      | none =>
        constructor
        · simp [Backend.update_ticket, hf]
        · rintro ⟨t, ht, hid⟩
          rw [List.find?_eq_none] at hf
          exact absurd (by simpa using hid) (hf t ht)
      | some t0 =>
        by_cases hown : t0.user_id = caller_id
        · simp [Backend.update_ticket, hf, hown, hrole, hstat, ApiResult.code]
        · simp [Backend.update_ticket, hf, hown, hrole, hstat, ApiResult.code]
  · intro hadm hmem ⟨t, ht, hid⟩
    have hc : valid_statuses.contains s = true := by
      simpa [List.contains] using hmem
    have hrows : ((db.tickets.filter (fun t => t.id == ticket_id)).length == 0) = false := by
      have htf : t ∈ db.tickets.filter (fun t => t.id == ticket_id) := by
        rw [List.mem_filter]
        exact ⟨ht, by simpa using hid⟩
      have hne := List.ne_nil_of_mem htf
      simp only [beq_eq_false_iff_ne, ne_eq, List.length_eq_zero]
      simpa using hne
    unfold Backend.update_ticket_status
    simp only [hc, hadm, hrows, Bool.not_true, Bool.false_eq_true, if_false, if_true,
      Bool.not_false]
    refine ⟨by simp [hmem], ?_⟩
    intro t2 ht2 hid2
    simp only [hmem, if_true, List.mem_map] at ht2
    obtain ⟨t1, ht1, heq⟩ := ht2
    by_cases h1 : t1.id = ticket_id
    · rw [← heq]
      simp [h1]
    · exfalso
      rw [← heq] at hid2
      simp [h1] at hid2

/-- Concrete instance of C4: on `c3_db` (student 2, ticket 1 pending), the
student's PUT is refused with the database unchanged, the student's PATCH
carrying a status is refused with 403, and an admin on `c10_db` resolves
the ticket. -/
theorem c4_witness :
    user_role c3_db 2 ≠ "admin" ∧
    (Backend.update_ticket_status c3_db 2 1 "resolved").1 = c3_db ∧
    (Backend.update_ticket_status c3_db 2 1 "resolved").2
      = ApiResult.err 403 "Admin access required" ∧
    ApiResult.code (Backend.update_ticket
      c3_db 2 1
      { student_name := none, location := none, issue_type := none,
        description := none, priority := none, status := some "resolved" }).2 = some 403 ∧
    (Backend.update_ticket_status c10_db 9 1 "resolved").2 = ApiResult.ok (1, "resolved") := by
  have hne : user_role c3_db 2 ≠ "admin" := by decide
  refine ⟨hne, ?_, ?_, ?_, ?_⟩
  · exact ((c4_backend_status_admin_only c3_db 2 1 "resolved"
      { student_name := none, location := none, issue_type := none,
        description := none, priority := none, status := some "resolved" }).1 hne).1
  · exact (((c4_backend_status_admin_only c3_db 2 1 "resolved"
      { student_name := none, location := none, issue_type := none,
        description := none, priority := none, status := some "resolved" }).1 hne).2.1
      (by decide))
  · exact ((((c4_backend_status_admin_only c3_db 2 1 "resolved"
      { student_name := none, location := none, issue_type := none,
        description := none, priority := none, status := some "resolved" }).1 hne).2.2
      rfl).2 ⟨c3_ticket, by decide, rfl⟩)
  · exact ((c4_backend_status_admin_only c10_db 9 1 "resolved"
      { student_name := none, location := none, issue_type := none,
        description := none, priority := none, status := some "resolved" }).2
      (by decide) (by decide) ⟨c3_ticket, by decide, rfl⟩).1

/-! ## Claim C8 -/

/-- Claim C8: for every admin caller, `DELETE /api/tickets/{id}` on an
existing ticket removes the ticket's row and succeeds with a confirmation
for every image-file situation (present or missing, removal succeeding or
failing — the row deletion is never rolled back), and answers 404 when no
row has the requested id; when the image path is non-empty, the file is on
disk and removal succeeds, the file is indeed removed. -/
theorem c8_delete_ticket_behaviour (db : DB) (caller_id ticket_id : Nat)
    (image_on_disk remove_ok : Bool)
    (hadm : is_admin_strict db caller_id = true) :
    ((∃ t ∈ db.tickets, t.id = ticket_id) →
      (Backend.delete_ticket db caller_id ticket_id image_on_disk remove_ok).2.2
        = ApiResult.ok ticket_id ∧
      (Backend.delete_ticket db caller_id ticket_id image_on_disk remove_ok).1.tickets
        = db.tickets.filter (fun t => !(t.id == ticket_id)) ∧
      ((∀ t ∈ db.tickets, t.id = ticket_id → t.image_path ≠ "") →
        image_on_disk = true → remove_ok = true →
        (Backend.delete_ticket db caller_id ticket_id image_on_disk remove_ok).2.1 = true)) ∧
    ((∀ t ∈ db.tickets, t.id ≠ ticket_id) →
      (Backend.delete_ticket db caller_id ticket_id image_on_disk remove_ok).2.2
        = ApiResult.err 404 "Ticket not found" ∧
      (Backend.delete_ticket db caller_id ticket_id image_on_disk remove_ok).1 = db) := by
  constructor
  · rintro ⟨t, ht, hid⟩
    have hfind : ∃ t0, db.tickets.find? (fun t => t.id == ticket_id) = some t0 := by
      cases hf : db.tickets.find? (fun t => t.id == ticket_id) with
      | none =>
        rw [List.find?_eq_none] at hf
        exact absurd (by simpa using hid) (hf t ht)
      | some t0 => exact ⟨t0, rfl⟩
    obtain ⟨t0, hf⟩ := hfind
    have ht0 := List.find?_some hf
    have ht0mem := List.mem_of_find?_eq_some hf
    refine ⟨?_, ?_, ?_⟩
    · simp [Backend.delete_ticket, hadm, hf]
    · simp [Backend.delete_ticket, hadm, hf]
    · intro hpath hdisk hrem
      have hid0 : t0.id = ticket_id := by simpa using ht0
      have hne : t0.image_path ≠ "" := hpath t0 ht0mem hid0
      simp [Backend.delete_ticket, hadm, hf, hdisk, hrem, hne]
  · intro hnone
    have hf : db.tickets.find? (fun t => t.id == ticket_id) = none := by
      rw [List.find?_eq_none]
      intro t ht
      simpa using hnone t ht
    simp [Backend.delete_ticket, hadm, hf]

/-- Concrete instance of C8: admin 9 deletes ticket 1 (its image removal
failing does not matter), and deleting the now-absent ticket 3 gives 404. -/
theorem c8_witness :
    is_admin_strict c10_db 9 = true ∧
    (Backend.delete_ticket c10_db 9 1 true false).2.2 = ApiResult.ok 1 ∧
    (Backend.delete_ticket c10_db 9 1 true false).1.tickets
      = c10_db.tickets.filter (fun t => !(t.id == 1)) ∧
    (Backend.delete_ticket c10_db 9 3 true true).2.2
      = ApiResult.err 404 "Ticket not found" :=
  ⟨by decide,
   ((c8_delete_ticket_behaviour c10_db 9 1 true false (by decide)).1
      ⟨c3_ticket, by decide, rfl⟩).1,
   ((c8_delete_ticket_behaviour c10_db 9 1 true false (by decide)).1
      ⟨c3_ticket, by decide, rfl⟩).2.1,
   ((c8_delete_ticket_behaviour c10_db 9 3 true true (by decide)).2 (by decide)).1⟩

/-! ## Claim C6 -/

/-- A database with one registered user whose email is outside the
`@reva.edu.in` domain. -/
def c6_db : DB :=
  { users :=
      [{ id := 1, email := "a@x.com", password_hash := "h1",
         full_name := "Ann", role := "student" }],
    tickets := [] }

def c6_req : SignupRequest :=
  { email := "a@x.com", password := "secret1", full_name := "Ann", role := "student" }

/-- Claim C6 fails, as stated, on the root variant (`main.py`): its signup
checks the `@reva.edu.in` domain allowlist before the duplicate check, so
signing up a duplicate of the registered email `a@x.com` answers 400 with
the domain-policy detail, not the Conflict detail "Email already
registered" (the users table is still left unchanged). -/
theorem c6_counterexample :
    (Root.signup c6_db c6_req 2).2 = ApiResult.err 400 "Only @reva.edu.in emails are allowed" ∧
    (Root.signup c6_db c6_req 2).1 = c6_db ∧
    "Only @reva.edu.in emails are allowed" ≠ "Email already registered" := by
  refine ⟨by decide, by decide, by decide⟩

/-- Claim C6 (amended): for every database already containing the requested
email, signup never creates a second row — both variants leave the users
table unchanged — and returns 400; the backend variant always answers with
the Conflict detail "Email already registered", and the root variant does
so whenever the email satisfies its `@reva.edu.in` domain policy (otherwise
the domain-policy 400 fires first). -/
theorem c6_duplicate_email_conflict (db : DB) (req : SignupRequest) (new_id : Nat)
    (hdup : ∃ u ∈ db.users, u.email = req.email) :
    (Backend.signup db req new_id).1 = db ∧
    (Backend.signup db req new_id).2 = ApiResult.err 400 "Email already registered" ∧
    (Root.signup db req new_id).1 = db ∧
    (strEndsWith req.email "@reva.edu.in" = true →
      (Root.signup db req new_id).2 = ApiResult.err 400 "Email already registered") := by
  obtain ⟨u, hu, hmail⟩ := hdup
  have hany : db.users.any (fun u => u.email == req.email) = true := by
    rw [List.any_eq_true]
    exact ⟨u, hu, by simpa using hmail⟩
  refine ⟨?_, ?_, ?_, ?_⟩
  · simp [Backend.signup, hany]
  · simp [Backend.signup, hany]
  · unfold Root.signup
    cases hdom : strEndsWith req.email "@reva.edu.in" <;> simp [hdom, hany]
  · intro hdom
    simp [Root.signup, hdom, hany]

/-- A database with one registered in-domain user. -/
def c6r_db : DB :=
  { users :=
      [{ id := 1, email := "s@reva.edu.in", password_hash := "h1",
         full_name := "Sam", role := "student" }],
    tickets := [] }

def c6r_req : SignupRequest :=
  { email := "s@reva.edu.in", password := "secret1", full_name := "Sam2", role := "student" }

/-- Concrete instance of the amended C6: a duplicate in-domain email gets
the Conflict answer from both variants and no new row. -/
theorem c6_witness :
    (Backend.signup c6r_db c6r_req 2).1 = c6r_db ∧
    (Backend.signup c6r_db c6r_req 2).2 = ApiResult.err 400 "Email already registered" ∧
    (Root.signup c6r_db c6r_req 2).1 = c6r_db ∧
    (Root.signup c6r_db c6r_req 2).2 = ApiResult.err 400 "Email already registered" := by
  have h := c6_duplicate_email_conflict c6r_db c6r_req 2
    ⟨{ id := 1, email := "s@reva.edu.in", password_hash := "h1",
       full_name := "Sam", role := "student" }, by decide, rfl⟩
  exact ⟨h.1, h.2.1, h.2.2.1, h.2.2.2 (by decide)⟩

